import Mathlib

/-!
Shallow embedding of the auth subsystem of the chatbot application:
the user store (`backend/auth/src/models/User.ts`), the PKCE challenge
cache and OAuth routes (`backend/auth/src/routes/oauth.ts`), the Passport
verify callbacks (`backend/auth/src/config/oauth.ts`), the auth routes
(register/login/refresh) and the JWT authentication middleware.

Time is a `Nat` (milliseconds for the PKCE cache, seconds for JWT claims;
each function takes the clock explicitly).  User ids (uuidv4 in the
source) are modelled by a counter carried in the store: the property of
uuidv4 that matters here is that a freshly generated id is new.
-/

namespace ChatbotAuth

/-- JavaScript falsiness of strings, as used by `userData.passwordHash || null`
and `picture ? { picture } : undefined` in the source: the empty string is
falsy and becomes `null`/`undefined`. -/
def jsStringOrNull (o : Option String) : Option String :=
  match o with
  | none => none
  | some s => if s = "" then none else some s

/-! ## PKCE challenge cache (`routes/oauth.ts`) -/

/-- One entry of the in-process `pkceStore`:
`{ challenge: string; verifier: string; expires: number }`. -/
structure PkceEntry where
  challenge : String
  verifier : String
  expires : Nat
  deriving Repr, DecidableEq

/-- The `pkceStore` object, keyed by the random hex key. -/
abbrev PkceStore := List (String × PkceEntry)

/-- `pkceStore[key]` lookup. -/
def pkceLookup (s : PkceStore) (key : String) : Option PkceEntry :=
  (s.find? (fun kv => kv.1 = key)).map (·.2)

/-- `verifyPKCE(key, challenge)` from `routes/oauth.ts`: returns `null` if the
key is absent, the entry has expired (`stored.expires < Date.now()`), or the
presented challenge differs; otherwise returns the stored verifier and deletes
the entry (`delete pkceStore[key]` — one-time use).  The pair is the returned
value together with the store after the call. -/
def verifyPKCE (s : PkceStore) (now : Nat) (key challenge : String) :
    Option String × PkceStore :=
  match pkceLookup s key with
  | none => (none, s)
  | some stored =>
    if stored.expires < now ∨ stored.challenge ≠ challenge then
      (none, s)
    else
      (some stored.verifier, s.filter (fun kv => kv.1 ≠ key))

/-! ## User store (`models/User.ts`) -/

/-- A row of the `users` table, as surfaced by the `UserData` interface.
`preferences` is an opaque blob irrelevant to every claim and is omitted;
timestamps are `Nat`s. -/
structure UserData where
  id : Nat
  email : String
  passwordHash : Option String
  name : String
  role : String
  oauthProvider : Option String
  oauthId : Option String
  picture : Option String
  emailVerified : Bool
  lastLogin : Option Nat
  createdAt : Nat
  updatedAt : Nat
  deriving Repr, DecidableEq

/-- The database: the `users` table plus the uuid generator state
(`nextId` models uuidv4 drawing a fresh id). -/
structure Db where
  users : List UserData
  nextId : Nat
  deriving Repr, DecidableEq

/-- `User.findByEmail`: `SELECT * FROM users WHERE email = $1`, first row. -/
def findByEmail (db : Db) (email : String) : Option UserData :=
  db.users.find? (fun u => u.email = email)

/-- `User.findById`: `SELECT * FROM users WHERE id = $1`, first row. -/
def findById (db : Db) (id : Nat) : Option UserData :=
  db.users.find? (fun u => u.id = id)

/-- `User.findByOAuthId`:
`SELECT * FROM users WHERE oauth_provider = $1 AND oauth_id = $2`, first row
(SQL `=` against a NULL column never matches, hence both fields must be
present and equal). -/
def findByOAuthId (db : Db) (provider oauthId : String) : Option UserData :=
  db.users.find? (fun u =>
    u.oauthProvider = some provider ∧ u.oauthId = some oauthId)

/-- `User.create`: INSERT with `passwordHash || null`, `oauthProvider || null`,
`oauthId || null`, `picture || null`, `emailVerified || false`, fresh uuid and
current timestamps.  Returns the created row and the new store. -/
def dbCreate (db : Db) (now : Nat) (email : String) (passwordHash : Option String)
    (name role : String) (oauthProvider oauthId picture : Option String)
    (emailVerified : Bool) : UserData × Db :=
  let u : UserData :=
    { id := db.nextId
      email := email
      passwordHash := jsStringOrNull passwordHash
      name := name
      role := role
      oauthProvider := jsStringOrNull oauthProvider
      oauthId := jsStringOrNull oauthId
      picture := jsStringOrNull picture
      emailVerified := emailVerified
      lastLogin := none
      createdAt := now
      updatedAt := now }
  (u, { users := db.users ++ [u], nextId := db.nextId + 1 })

/-- The row transformation of `User.updateOAuthInfo` on one row: the SET
clause applied when the WHERE clause matches.
`COALESCE($3, picture)` keeps the old picture only when no new one is
passed. -/
def oauthInfoUpdater (userId : Nat) (provider oauthId picture : Option String)
    (now : Nat) (u : UserData) : UserData :=
  if u.id = userId then
    { u with
        oauthProvider := provider
        oauthId := oauthId
        picture := match picture with
          | some p => some p
          | none => u.picture
        updatedAt := now }
  else u

/-- `User.updateOAuthInfo`:
`UPDATE users SET oauth_provider = $1, oauth_id = $2,
picture = COALESCE($3, picture), updated_at = CURRENT_TIMESTAMP WHERE id = $4`. -/
def updateOAuthInfo (db : Db) (userId : Nat) (provider oauthId : Option String)
    (picture : Option String) (now : Nat) : Db :=
  { db with users :=
      db.users.map (oauthInfoUpdater userId provider oauthId picture now) }

/-- The row transformation of `User.updateLastLogin` on one row. -/
def lastLoginUpdater (userId : Nat) (now : Nat) (u : UserData) : UserData :=
  if u.id = userId then { u with lastLogin := some now } else u

/-- `User.updateLastLogin`:
`UPDATE users SET last_login = CURRENT_TIMESTAMP WHERE id = $1`. -/
def updateLastLogin (db : Db) (userId : Nat) (now : Nat) : Db :=
  { db with users := db.users.map (lastLoginUpdater userId now) }

/-- `User.createOAuthUser`: `create` with role defaulted to `'user'`,
no password, and `emailVerified: true` (OAuth users come pre-verified). -/
def createOAuthUser (db : Db) (now : Nat) (email name : String)
    (oauthProvider oauthId : String) (picture : Option String) :
    UserData × Db :=
  dbCreate db now email none name "user" (some oauthProvider) (some oauthId)
    picture true

/-- `User.linkOAuthAccount`: re-checks `findByOAuthId` and throws
`'OAuth account already linked to another user'` when the external identity
belongs to a different user id; otherwise performs `updateOAuthInfo`. -/
def linkOAuthAccount (db : Db) (now : Nat) (userId : Nat)
    (provider oauthId : String) (picture : Option String) :
    Except String Db :=
  match findByOAuthId db provider oauthId with
  | some existingUser =>
    if existingUser.id ≠ userId then
      .error "OAuth account already linked to another user"
    else
      .ok (updateOAuthInfo db userId (some provider) (some oauthId) picture now)
  | none =>
    .ok (updateOAuthInfo db userId (some provider) (some oauthId) picture now)

/-! ## JWT (models the `jsonwebtoken` library as used here) -/

/-- The claims this service signs: `{ userId, email, role }`. -/
structure JwtPayload where
  userId : Nat
  email : String
  role : String
  deriving Repr, DecidableEq

/-- A signed token.  `secret` stands for the signature: a token verifies
against a secret exactly when it was signed with that secret. -/
structure SignedToken where
  payload : JwtPayload
  iat : Nat
  exp : Nat
  secret : String
  deriving Repr, DecidableEq

/-- Errors thrown by `jwt.verify`.  In the `jsonwebtoken` library
`TokenExpiredError` is a subclass of `JsonWebTokenError`, so an
`instanceof JsonWebTokenError` test is true for expired tokens too. -/
inductive JwtError where
  | invalidSignature
  | tokenExpired
  deriving Repr, DecidableEq

/-- `err instanceof jwt.JsonWebTokenError` — true for every library error,
the expiry error included (subclassing). -/
def JwtError.instanceOfJsonWebTokenError : JwtError → Bool
  | _ => true

/-- `err instanceof jwt.TokenExpiredError` — true only for the expiry error. -/
def JwtError.instanceOfTokenExpiredError : JwtError → Bool
  | .tokenExpired => true
  | .invalidSignature => false

/-- The fixed validity window: `expiresIn: '24h'` (in seconds). -/
def jwtValiditySeconds : Nat := 24 * 60 * 60

/-- `jwt.sign(payload, secret, { expiresIn: '24h' })`. -/
def jwtSign (secret : String) (p : JwtPayload) (now : Nat) : SignedToken :=
  { payload := p, iat := now, exp := now + jwtValiditySeconds, secret := secret }

/-- `jwt.verify(token, secret)`: rejects a wrong signature with
`JsonWebTokenError` and a passed expiry (`now ≥ exp`) with
`TokenExpiredError`; otherwise yields the decoded claims. -/
def jwtVerify (secret : String) (t : SignedToken) (now : Nat) :
    Except JwtError JwtPayload :=
  if t.secret ≠ secret then .error .invalidSignature
  else if t.exp ≤ now then .error .tokenExpired
  else .ok t.payload

/-! ## JWT authentication middleware (`middleware/auth.ts`, `authenticateToken`) -/

/-- The response the middleware produces: pass the request on with the loaded
user, reply 401 with a message, or reply 500. -/
inductive AuthOutcome where
  | ok (u : UserData)
  | unauthorized (msg : String)
  | serverError
  deriving Repr, DecidableEq

/-- `authenticateToken`: extracts the bearer token, runs `jwt.verify`, loads
the user.  The catch block tests `error instanceof jwt.JsonWebTokenError`
BEFORE `error instanceof jwt.TokenExpiredError`, exactly as the source does. -/
def authenticateToken (db : Db) (secret : String) (token : Option SignedToken)
    (now : Nat) : AuthOutcome :=
  match token with
  | none => .unauthorized "Access token required"
  | some t =>
    match jwtVerify secret t now with
    | .ok decoded =>
      match findById db decoded.userId with
      | none => .unauthorized "Invalid token"
      | some user => .ok user
    | .error e =>
      if e.instanceOfJsonWebTokenError then .unauthorized "Invalid token"
      else if e.instanceOfTokenExpiredError then .unauthorized "Token expired"
      else .serverError

/-! ## Passport verify callbacks (`config/oauth.ts`) -/

/-- The three registered strategies. -/
inductive Provider where
  | google
  | github
  | microsoft
  deriving Repr, DecidableEq

/-- The provider name as written into `oauth_provider`. -/
def Provider.str : Provider → String
  | .google => "google"
  | .github => "github"
  | .microsoft => "microsoft"

/-- The inputs the verify callback reads off the provider profile:
`profile.emails?.[0]?.value` (possibly absent), the display name, the
external id `profile.id`, and `profile.photos?.[0]?.value`. -/
structure RawProfile where
  id : String
  email : Option String
  name : String
  picture : Option String
  deriving Repr, DecidableEq

/-- Outcome of the verify callback: `done(null, user)` or
`done(new Error('No email provided by …'), …)`. -/
inductive OAuthCbResult where
  | ok (u : UserData)
  | noEmail
  deriving Repr, DecidableEq

/-- The Google/GitHub/Microsoft verify callback from `config/oauth.ts` (the
three bodies are textually identical in this logic, differing only in the
provider literal).  Note the lookup is `User.findByEmail` ONLY — the callback
never consults `User.findByOAuthId`.  When it links, it returns the `user`
object fetched BEFORE the update.  `if (!email)` and
`picture ? { picture } : undefined` follow JS string falsiness. -/
def oauthVerify (db : Db) (now : Nat) (p : Provider) (profile : RawProfile) :
    OAuthCbResult × Db :=
  match jsStringOrNull profile.email with
  | none => (.noEmail, db)
  | some email =>
    match findByEmail db email with
    | some user =>
      if user.oauthProvider = none then
        (.ok user,
         updateOAuthInfo db user.id (some p.str) (some profile.id)
           (jsStringOrNull profile.picture) now)
      else
        (.ok user, db)
    | none =>
      let created := createOAuthUser db now email profile.name p.str profile.id
        profile.picture
      (.ok created.1, created.2)

/-! ## bcrypt (models the `bcryptjs` library) -/

/-- `bcrypt.hash`: modelled as an injective tagging of the password; the one
property used by the routes is the round trip with `bcryptCompare`. -/
def bcryptHash (password : String) : String :=
  "bcrypt$" ++ password

/-- `bcrypt.compare(password, hash)`: succeeds exactly when `hash` is the
hash of `password`. -/
def bcryptCompare (password hash : String) : Bool :=
  hash = bcryptHash password

/-! ## Auth routes (`routes/auth.ts`): register, login, refresh -/

/-- The JWT secret: `process.env.JWT_SECRET || 'fallback-secret'`, one fixed
string for the whole service. -/
def jwtSecretOf (env : Option String) : String :=
  match jsStringOrNull env with
  | some s => s
  | none => "fallback-secret"

/-- Outcome of `POST /register`. -/
inductive RegisterResult where
  | ok (token : SignedToken) (u : UserData)
  | alreadyExists
  deriving Repr, DecidableEq

/-- `POST /register`: rejects `'User already exists'` when `findByEmail`
matches; otherwise hashes the password, creates the user (role from the
request, defaulted to `'user'`; `emailVerified` not passed, so `false`),
and signs a token over `{ userId, email, role }`. -/
def register (db : Db) (secret : String) (now : Nat)
    (email password name role : String) : RegisterResult × Db :=
  match findByEmail db email with
  | some _ => (.alreadyExists, db)
  | none =>
    let created := dbCreate db now email (some (bcryptHash password)) name role
      none none none false
    let user := created.1
    (.ok (jwtSign secret ⟨user.id, user.email, user.role⟩ now) user, created.2)

/-- Outcome of `POST /login`: success with a token, or a 401 with the exact
response message. -/
inductive LoginResult where
  | ok (token : SignedToken) (u : UserData)
  | err (msg : String)
  deriving Repr, DecidableEq

/-- The message for OAuth-only accounts, verbatim from `routes/auth.ts`. -/
def oauthOnlyLoginMsg : String :=
  "This account uses OAuth login. Please use Google, GitHub, or Microsoft to sign in."

/-- `POST /login`: unknown email → `'Invalid credentials'`; account without a
`passwordHash` → the distinguishable OAuth message; `bcrypt.compare` failure →
`'Invalid credentials'`; success updates `lastLogin` and signs a token. -/
def login (db : Db) (secret : String) (now : Nat) (email password : String) :
    LoginResult × Db :=
  match findByEmail db email with
  | none => (.err "Invalid credentials", db)
  | some user =>
    match user.passwordHash with
    | none => (.err oauthOnlyLoginMsg, db)
    | some hash =>
      if bcryptCompare password hash then
        (.ok (jwtSign secret ⟨user.id, user.email, user.role⟩ now) user,
         updateLastLogin db user.id now)
      else
        (.err "Invalid credentials", db)

/-- Outcome of `POST /refresh`. -/
inductive RefreshResult where
  | ok (token : SignedToken)
  | err (msg : String)
  deriving Repr, DecidableEq

/-- `POST /refresh`: missing token → `'Token required'`; any `jwt.verify`
failure is caught and answered `'Invalid token'`; a verifying token whose
`userId` matches no user → `'Invalid token'`; otherwise a fresh token is
signed over the CURRENT user record (`user.id`, `user.email`, `user.role`). -/
def refresh (db : Db) (secret : String) (token : Option SignedToken)
    (now : Nat) : RefreshResult :=
  match token with
  | none => .err "Token required"
  | some t =>
    match jwtVerify secret t now with
    | .error _ => .err "Invalid token"
    | .ok decoded =>
      match findById db decoded.userId with
      | none => .err "Invalid token"
      | some user => .ok (jwtSign secret ⟨user.id, user.email, user.role⟩ now)

/-! ## OAuth link/unlink routes (`routes/oauth.ts`) -/

/-- The fixed provider allow-list of the routes:
`['google', 'github', 'microsoft'].includes(provider)`. -/
def validProvider (provider : String) : Bool :=
  provider = "google" ∨ provider = "github" ∨ provider = "microsoft"

/-- Outcome of `POST /link/:provider`. -/
inductive LinkResult where
  | ok
  | invalidProvider
  | userNotFound
  | conflict
  | serverError
  deriving Repr, DecidableEq

/-- `POST /link/:provider`: validates the provider, loads the user, answers
409 when `findByOAuthId` names a different user, then calls
`User.linkOAuthAccount` (which re-checks and throws — a throw surfaces as
500). -/
def linkRoute (db : Db) (now : Nat) (provider : String) (userId : Nat)
    (oauthId : String) : LinkResult × Db :=
  if !validProvider provider then (.invalidProvider, db)
  else
    match findById db userId with
    | none => (.userNotFound, db)
    | some _ =>
      match findByOAuthId db provider oauthId with
      | some existingUser =>
        if existingUser.id ≠ userId then (.conflict, db)
        else
          match linkOAuthAccount db now userId provider oauthId none with
          | .ok db' => (.ok, db')
          | .error _ => (.serverError, db)
      | none =>
        match linkOAuthAccount db now userId provider oauthId none with
        | .ok db' => (.ok, db')
        | .error _ => (.serverError, db)

/-- Outcome of `POST /unlink/:provider`. -/
inductive UnlinkResult where
  | ok
  | invalidProvider
  | userNotFound
  deriving Repr, DecidableEq

/-- `POST /unlink/:provider`: validates the provider, loads the user, then
unconditionally clears the linkage with
`User.updateOAuthInfo(userId, null, null)` — no check that a password
remains. -/
def unlinkRoute (db : Db) (now : Nat) (provider : String) (userId : Nat) :
    UnlinkResult × Db :=
  if !validProvider provider then (.invalidProvider, db)
  else
    match findById db userId with
    | none => (.userNotFound, db)
    | some _ => (.ok, updateOAuthInfo db userId none none none now)

/-! ## Invariants and helper values used by the statements -/

/-- The uniqueness invariant of the spec's data model: no two distinct users
(distinct primary keys) both carry the same fully-present
`(oauthProvider, oauthId)` pair. -/
def oauthPairUnique (db : Db) : Bool :=
  db.users.all fun u => db.users.all fun w =>
    u.id = w.id ∨
      ¬(u.oauthProvider.isSome ∧ u.oauthProvider = w.oauthProvider ∧
        u.oauthId.isSome ∧ u.oauthId = w.oauthId)

/-- The credential invariant of the spec's data model for one row:
a password hash or an OAuth linkage is present. -/
def canAuthenticate (u : UserData) : Bool :=
  u.passwordHash.isSome || u.oauthProvider.isSome

/-- The credential invariant over the whole store. -/
def credentialInvariant (db : Db) : Bool :=
  db.users.all canAuthenticate

/-- The row produced by the callback's linking branch
(`User.updateOAuthInfo` applied to the user found by email). -/
def linkedUser (u : UserData) (p : Provider) (profile : RawProfile)
    (now : Nat) : UserData :=
  { u with
      oauthProvider := some p.str
      oauthId := some profile.id
      picture := match jsStringOrNull profile.picture with
        | some q => some q
        | none => u.picture
      updatedAt := now }

/-- A user row with the defaults shared by the concrete scenarios below. -/
def mkUser (id : Nat) (email : String) (passwordHash : Option String)
    (oauthProvider oauthId picture : Option String) : UserData :=
  { id := id
    email := email
    passwordHash := passwordHash
    name := "Test User"
    role := "user"
    oauthProvider := oauthProvider
    oauthId := oauthId
    picture := picture
    emailVerified := false
    lastLogin := none
    createdAt := 0
    updatedAt := 0 }

/-- Store for the external-identity clash scenario: Bob already owns the
external identity `(google, "42")`; Alice is a password-only account. -/
def pairClashDb : Db :=
  ⟨[mkUser 0 "bob@example.com" none (some "google") (some "42") none,
    mkUser 1 "alice@example.com" (some (bcryptHash "pw123")) none none none],
   2⟩

/-- A verified Google profile carrying Bob's external id `"42"` but Alice's
email (the provider account's email was changed or reused). -/
def pairClashProfile : RawProfile :=
  { id := "42", email := some "alice@example.com", name := "Alice",
    picture := none }

/-- Store for the stale-email scenario: Bob's account is linked to
`(google, "42")` under his old email. -/
def staleEmailDb : Db :=
  ⟨[mkUser 0 "bob@example.com" none (some "google") (some "42") none], 1⟩

/-- The same Google account `"42"` coming back with a new email. -/
def staleEmailProfile : RawProfile :=
  { id := "42", email := some "bob.new@example.com", name := "Bob",
    picture := none }

/-- Store with a single OAuth-only account (no password hash). -/
def oauthOnlyDb : Db :=
  ⟨[mkUser 0 "carol@example.com" none (some "google") (some "77") none], 1⟩

/-- Store for the refresh scenario: user 1's email in the store is
`new@example.com`. -/
def refreshDb : Db :=
  ⟨[mkUser 1 "new@example.com" (some (bcryptHash "pw")) none none none], 2⟩

/-- A still-valid token for user 1 carrying the email claim from before the
record changed. -/
def staleClaimToken : SignedToken :=
  { payload := ⟨1, "old@example.com", "user"⟩, iat := 0, exp := 100,
    secret := "secret" }

/-- Store for the picture scenario: Alice has a password account with a
picture already set. -/
def pictureDb : Db :=
  ⟨[mkUser 0 "alice@example.com" (some (bcryptHash "pw123")) none none
      (some "old.png")], 1⟩

/-- Alice's first Google login; the profile carries its own picture. -/
def pictureProfile : RawProfile :=
  { id := "42", email := some "alice@example.com", name := "Alice",
    picture := some "new.png" }

/-! # Theorems -/

/-! ## C4 and C10: the PKCE cache -/

/-- `pkceStore[key]` after the one-time-use delete never finds the key. -/
theorem pkceLookup_after_delete (s : PkceStore) (key : String) :
    pkceLookup (s.filter fun kv => kv.1 ≠ key) key = none := by
  simp only [pkceLookup, Option.map_eq_none']
  rw [List.find?_eq_none]
  intro x hx
  rw [List.mem_filter] at hx
  simpa using hx.2

/-- Unfolding equation of `verifyPKCE` for an absent key. -/
theorem verifyPKCE_lookup_none {s : PkceStore} {now : Nat} {key ch : String}
    (hl : pkceLookup s key = none) : verifyPKCE s now key ch = (none, s) := by
  unfold verifyPKCE
  rw [hl]

/-- Unfolding equation of `verifyPKCE` for a present key. -/
theorem verifyPKCE_lookup_some {s : PkceStore} {now : Nat} {key ch : String}
    {e : PkceEntry} (hl : pkceLookup s key = some e) :
    verifyPKCE s now key ch =
      if e.expires < now ∨ e.challenge ≠ ch then (none, s)
      else (some e.verifier, s.filter fun kv => kv.1 ≠ key) := by
  unfold verifyPKCE
  rw [hl]

/-- C4: `verify(key, presentedChallenge)` returns the stored verifier iff the
key is present, not expired (`now ≤ expires` — the code treats an entry whose
expiry equals the clock as still live), and the presented challenge equals the
stored one; in every other case it returns `none`; on success the entry is
deleted, so a second `verify` on the same key returns `none`; and an expired
entry fails even with the correct challenge. -/
theorem pkce_verify_spec (s : PkceStore) (now : Nat) (key challenge : String) :
    (∀ v, (verifyPKCE s now key challenge).1 = some v ↔
      ∃ e, pkceLookup s key = some e ∧ now ≤ e.expires ∧
        e.challenge = challenge ∧ e.verifier = v) ∧
    ((verifyPKCE s now key challenge).1.isSome = true →
      ∀ now' ch,
        (verifyPKCE (verifyPKCE s now key challenge).2 now' key ch).1 = none) ∧
    (∀ e, pkceLookup s key = some e → e.expires < now →
      ∀ ch, (verifyPKCE s now key ch).1 = none) := by
  refine ⟨?_, ?_, ?_⟩
  · intro v
    cases hl : pkceLookup s key with
    | none => simp [verifyPKCE_lookup_none hl, hl]
    | some e =>
      rw [verifyPKCE_lookup_some hl]
      by_cases hc : e.expires < now ∨ e.challenge ≠ challenge
      · rw [if_pos hc]
        simp only [false_iff, reduceCtorEq]
        rintro ⟨e', he', hlive, hch, _⟩
        obtain rfl := Option.some_inj.mp he'
        rcases hc with hc | hc
        · exact absurd hc (Nat.not_lt.mpr hlive)
        · exact hc hch
      · rw [if_neg hc]
        push_neg at hc
        constructor
        · intro hv
          exact ⟨e, rfl, hc.1, hc.2, by simpa using hv⟩
        · rintro ⟨e', he', _, _, rfl⟩
          obtain rfl := Option.some_inj.mp he'
          rfl
  · intro hsome now' ch
    cases hl : pkceLookup s key with
    | none => rw [verifyPKCE_lookup_none hl] at hsome; simp at hsome
    | some e =>
      rw [verifyPKCE_lookup_some hl] at hsome ⊢
      by_cases hc : e.expires < now ∨ e.challenge ≠ challenge
      · rw [if_pos hc] at hsome; simp at hsome
      · rw [if_neg hc] at hsome ⊢
        rw [verifyPKCE_lookup_none
          (by simpa using pkceLookup_after_delete s key)]
  · intro e hl hexp ch
    rw [verifyPKCE_lookup_some hl, if_pos (Or.inl hexp)]

/-- Witness for C4 at a concrete store: a live entry with the right challenge
verifies, and the follow-up call on the same key fails. -/
theorem pkce_verify_spec_witness :
    (verifyPKCE [("k", ⟨"c", "v", 100⟩)] 40 "k" "c").1 = some "v" ∧
    (verifyPKCE (verifyPKCE [("k", ⟨"c", "v", 100⟩)] 40 "k" "c").2
      41 "k" "c").1 = none := by
  have h := pkce_verify_spec [("k", ⟨"c", "v", 100⟩)] 40 "k" "c"
  have hv : (verifyPKCE [("k", ⟨"c", "v", 100⟩)] 40 "k" "c").1 = some "v" :=
    (h.1 "v").mpr ⟨⟨"c", "v", 100⟩, by decide, by decide, rfl, rfl⟩
  exact ⟨hv, h.2.1 (by rw [hv]; rfl) 41 "c"⟩

/-- C10: a `verify` call on a live entry with a non-matching challenge returns
`none` and leaves the store untouched, so a later call with the correct
challenge still yields the verifier; more generally, every failing `verify`
leaves the store unchanged — only a successful one deletes the entry. -/
theorem pkce_failed_verify_preserves (s : PkceStore) (now : Nat)
    (key ch : String) (e : PkceEntry)
    (hl : pkceLookup s key = some e) (hlive : now ≤ e.expires)
    (hwrong : ch ≠ e.challenge) :
    verifyPKCE s now key ch = (none, s) ∧
    (∀ now', now' ≤ e.expires →
      (verifyPKCE s now' key e.challenge).1 = some e.verifier) ∧
    (∀ n c, (verifyPKCE s n key c).1 = none → (verifyPKCE s n key c).2 = s) := by
  refine ⟨?_, ?_, ?_⟩
  · rw [verifyPKCE_lookup_some hl,
      if_pos (Or.inr (fun h => hwrong h.symm))]
  · intro now' hlive'
    rw [verifyPKCE_lookup_some hl,
      if_neg (by push_neg; exact ⟨hlive', rfl⟩)]
  · intro n c
    cases hln : pkceLookup s key with
    | none => rw [verifyPKCE_lookup_none hln]; intro; rfl
    | some e' =>
      rw [verifyPKCE_lookup_some hln]
      by_cases hc : e'.expires < n ∨ e'.challenge ≠ c
      · rw [if_pos hc]; intro; rfl
      · rw [if_neg hc]; intro h; simp at h

/-- Witness for C10 at a concrete store: the wrong challenge fails and keeps
the entry, then the right challenge still verifies. -/
theorem pkce_failed_verify_preserves_witness :
    verifyPKCE [("k", ⟨"c", "v", 100⟩)] 40 "k" "x" =
      (none, [("k", ⟨"c", "v", 100⟩)]) ∧
    (verifyPKCE [("k", ⟨"c", "v", 100⟩)] 41 "k" "c").1 = some "v" := by
  have h := pkce_failed_verify_preserves [("k", ⟨"c", "v", 100⟩)] 40 "k" "x"
    ⟨"c", "v", 100⟩ (by decide) (by decide) (by decide)
  exact ⟨h.1, h.2.1 41 (by decide)⟩

/-! ## C3: expired vs. invalid tokens in `authenticateToken` -/

/-- C3 (code bug): an expired but correctly-signed token makes `jwt.verify`
throw `TokenExpiredError`, yet `authenticateToken` answers `'Invalid token'`
rather than `'Token expired'`: its catch block tests
`instanceof JsonWebTokenError` first, and `TokenExpiredError` is a subclass of
`JsonWebTokenError`, so the `'Token expired'` branch is unreachable. -/
theorem authenticateToken_expired_reported_invalid :
    jwtVerify "secret" (jwtSign "secret" ⟨1, "alice@example.com", "user"⟩ 0)
      jwtValiditySeconds = .error .tokenExpired ∧
    authenticateToken ⟨[], 0⟩ "secret"
      (some (jwtSign "secret" ⟨1, "alice@example.com", "user"⟩ 0))
      jwtValiditySeconds = .unauthorized "Invalid token" ∧
    JwtError.tokenExpired.instanceOfJsonWebTokenError = true :=
  ⟨rfl, rfl, rfl⟩

/-! ## C9: OAuth-only accounts at `POST /login` -/

/-- C9: `login` against an account whose `passwordHash` is absent fails with
the distinguishable use-OAuth message, for any password, and that message is
not the generic `'Invalid credentials'` used for unknown emails and wrong
passwords. -/
theorem login_oauth_only_distinct_error (db : Db) (secret : String)
    (now : Nat) (email password : String) (u : UserData)
    (hfind : findByEmail db email = some u)
    (hnopw : u.passwordHash = none) :
    (login db secret now email password).1 = .err oauthOnlyLoginMsg ∧
    oauthOnlyLoginMsg ≠ "Invalid credentials" := by
  constructor
  · simp [login, hfind, hnopw]
  · decide

/-- Witness for C9: a concrete OAuth-only account rejects a password login
with the use-OAuth message. -/
theorem login_oauth_only_distinct_error_witness :
    (login oauthOnlyDb "secret" 5 "carol@example.com" "anything").1 =
      .err oauthOnlyLoginMsg ∧
    oauthOnlyLoginMsg ≠ "Invalid credentials" :=
  login_oauth_only_distinct_error oauthOnlyDb "secret" 5 "carol@example.com"
    "anything" (mkUser 0 "carol@example.com" none (some "google") (some "77") none)
    (by decide) (by decide)

/-! ## C2: uniqueness of the external identity pair -/

/-- C2 (code bug): the OAuth callback does not preserve uniqueness of the
`(oauthProvider, oauthId)` pair.  Starting from a store where Bob owns
`(google, "42")` and Alice has no linkage, a Google callback presenting
external id `"42"` with Alice's email links the pair onto Alice too — two
distinct users then carry the same external identity, the very situation
`User.linkOAuthAccount` rejects with
`'OAuth account already linked to another user'`. -/
theorem oauth_callback_breaks_pair_uniqueness :
    oauthPairUnique pairClashDb = true ∧
    oauthPairUnique (oauthVerify pairClashDb 5 .google pairClashProfile).2 =
      false := by
  decide

/-! ## Shared lemmas about the callback and the user store -/

/-- The provider literals written by the strategies are never empty. -/
theorem Provider.str_ne_empty (p : Provider) : p.str ≠ "" := by
  cases p <;> decide

/-- `jsStringOrNull` keeps a non-empty string. -/
theorem jsStringOrNull_some {s : String} (h : s ≠ "") :
    jsStringOrNull (some s) = some s := by
  simp [jsStringOrNull, h]

/-- Callback unfolding: user found by email, provider already linked. -/
theorem oauthVerify_found_linked (db : Db) (now : Nat) (p : Provider)
    (profile : RawProfile) (email : String) (u : UserData)
    (he : jsStringOrNull profile.email = some email)
    (hf : findByEmail db email = some u)
    (hp : u.oauthProvider ≠ none) :
    oauthVerify db now p profile = (.ok u, db) := by
  simp [oauthVerify, he, hf, hp]

/-- Callback unfolding: user found by email, no provider linked yet. -/
theorem oauthVerify_found_unlinked (db : Db) (now : Nat) (p : Provider)
    (profile : RawProfile) (email : String) (u : UserData)
    (he : jsStringOrNull profile.email = some email)
    (hf : findByEmail db email = some u)
    (hp : u.oauthProvider = none) :
    oauthVerify db now p profile =
      (.ok u, updateOAuthInfo db u.id (some p.str) (some profile.id)
        (jsStringOrNull profile.picture) now) := by
  simp [oauthVerify, he, hf, hp]

/-- Callback unfolding: no user with the profile's email. -/
theorem oauthVerify_not_found (db : Db) (now : Nat) (p : Provider)
    (profile : RawProfile) (email : String)
    (he : jsStringOrNull profile.email = some email)
    (hf : findByEmail db email = none) :
    oauthVerify db now p profile =
      (.ok (createOAuthUser db now email profile.name p.str profile.id
          profile.picture).1,
       (createOAuthUser db now email profile.name p.str profile.id
          profile.picture).2) := by
  simp [oauthVerify, he, hf]

/-- A user appended behind a store in which the email is absent is what the
email lookup then finds. -/
theorem findByEmail_append_last (db : Db) (email : String) (u : UserData)
    (n : Nat) (hf : findByEmail db email = none) (hu : u.email = email) :
    findByEmail ⟨db.users ++ [u], n⟩ email = some u := by
  have hf' : db.users.find? (fun w => w.email = email) = none := hf
  show (db.users ++ [u]).find? (fun w => w.email = email) = some u
  rw [List.find?_append, hf']
  simp [List.find?, hu]

/-- `find?` by email commutes with mapping an email-preserving row
transformation over the table. -/
theorem find?_email_map (l : List UserData) (f : UserData → UserData)
    (hf : ∀ u, (f u).email = u.email) (email : String) :
    (l.map f).find? (fun u => u.email = email) =
      (l.find? (fun u => u.email = email)).map f := by
  induction l with
  | nil => rfl
  | cons x xs ih =>
    by_cases h : x.email = email
    · rw [List.map_cons, List.find?_cons_of_pos _ (by simp [hf, h]),
        List.find?_cons_of_pos _ (by simp [h])]
      rfl
    · rw [List.map_cons, List.find?_cons_of_neg _ (by simp [hf, h]),
        List.find?_cons_of_neg _ (by simp [h]), ih]

/-- The OAuth-info updater never touches the email column. -/
theorem oauthInfoUpdater_email (uid : Nat) (prov oid pic : Option String)
    (now : Nat) (u : UserData) :
    (oauthInfoUpdater uid prov oid pic now u).email = u.email := by
  by_cases h : u.id = uid <;> simp [oauthInfoUpdater, h]

/-- The updater's effect on the matching row. -/
theorem oauthInfoUpdater_self (uid : Nat) (prov oid pic : Option String)
    (now : Nat) (u : UserData) (h : u.id = uid) :
    oauthInfoUpdater uid prov oid pic now u =
      { u with
          oauthProvider := prov
          oauthId := oid
          picture := match pic with
            | some q => some q
            | none => u.picture
          updatedAt := now } := by
  simp [oauthInfoUpdater, h]

/-- Email lookup after `updateOAuthInfo`: the update never touches the email
column, so the lookup finds the updated image of the row it found before. -/
theorem findByEmail_updateOAuthInfo (db : Db) (uid : Nat)
    (prov oid pic : Option String) (now : Nat) (email : String) :
    findByEmail (updateOAuthInfo db uid prov oid pic now) email =
      (findByEmail db email).map (oauthInfoUpdater uid prov oid pic now) :=
  find?_email_map db.users _ (oauthInfoUpdater_email uid prov oid pic now)
    email

/-- The fields of a row created by `createOAuthUser`. -/
theorem createOAuthUser_fst (db : Db) (now : Nat) (email name : String)
    (p : Provider) (oauthId : String) (picture : Option String) :
    (createOAuthUser db now email name p.str oauthId picture).1.email = email ∧
    (createOAuthUser db now email name p.str oauthId picture).1.oauthProvider =
      some p.str ∧
    (createOAuthUser db now email name p.str oauthId picture).1.passwordHash =
      none := by
  refine ⟨rfl, ?_, rfl⟩
  show jsStringOrNull (some p.str) = some p.str
  exact jsStringOrNull_some (Provider.str_ne_empty p)

/-! ## C1: resolution order of the callback -/

/-- C1 counterexample: in `staleEmailDb` a user carrying `(google, "42")`
exists, yet the callback for a verified profile with exactly that external id
(and a changed email) neither returns that user nor leaves the store alone —
it creates a brand-new user, because the code looks up by email only and
never by `(provider, externalId)`. -/
theorem oauth_callback_ignores_oauthId_lookup :
    findByOAuthId staleEmailDb "google" "42" =
      some (mkUser 0 "bob@example.com" none (some "google") (some "42") none) ∧
    (oauthVerify staleEmailDb 5 .google staleEmailProfile).1 ≠
      .ok (mkUser 0 "bob@example.com" none (some "google") (some "42") none) ∧
    ((oauthVerify staleEmailDb 5 .google staleEmailProfile).2).users.length =
      staleEmailDb.users.length + 1 := by
  decide

/-- C1 (amended): identity resolution in the callback is by email only.  When
a user with the profile's email exists and already has an OAuth provider set,
that user is returned with no field mutated and the store left unchanged (the
repeat-login path); a lookup by `(provider, externalId)` never happens, so an
existing link is honored only while the profile's email still matches. -/
theorem oauth_callback_resolves_by_email (db : Db) (now : Nat) (p : Provider)
    (profile : RawProfile) (email : String) (u : UserData)
    (he : jsStringOrNull profile.email = some email)
    (hf : findByEmail db email = some u)
    (hp : u.oauthProvider ≠ none) :
    oauthVerify db now p profile = (.ok u, db) :=
  oauthVerify_found_linked db now p profile email u he hf hp

/-- Witness for the amended C1: a repeat Google login under the unchanged
email returns Bob's row untouched. -/
theorem oauth_callback_resolves_by_email_witness :
    oauthVerify staleEmailDb 7 .google
      { id := "42", email := some "bob@example.com", name := "Bob",
        picture := none } =
      (.ok (mkUser 0 "bob@example.com" none (some "google") (some "42") none),
       staleEmailDb) :=
  oauth_callback_resolves_by_email staleEmailDb 7 .google _ "bob@example.com"
    (mkUser 0 "bob@example.com" none (some "google") (some "42") none)
    (by decide) (by decide) (by decide)

/-! ## C7: idempotence of the callback -/

/-- C7: invoking the callback twice in sequence with the same verified
profile yields users with the same id both times, and the second invocation
leaves the store exactly as the first left it — in particular it creates no
new user. -/
theorem oauth_callback_idempotent (db : Db) (now₁ now₂ : Nat) (p : Provider)
    (profile : RawProfile) (email : String)
    (he : jsStringOrNull profile.email = some email) :
    ∃ u₁ u₂ : UserData,
      (oauthVerify db now₁ p profile).1 = .ok u₁ ∧
      (oauthVerify (oauthVerify db now₁ p profile).2 now₂ p profile).1 =
        .ok u₂ ∧
      u₂.id = u₁.id ∧
      (oauthVerify (oauthVerify db now₁ p profile).2 now₂ p profile).2 =
        (oauthVerify db now₁ p profile).2 := by
  cases hf : findByEmail db email with
  | none =>
    have h1 := oauthVerify_not_found db now₁ p profile email he hf
    have hflds := createOAuthUser_fst db now₁ email profile.name p profile.id
      profile.picture
    have hf2 : findByEmail
        (createOAuthUser db now₁ email profile.name p.str profile.id
          profile.picture).2 email =
        some (createOAuthUser db now₁ email profile.name p.str profile.id
          profile.picture).1 :=
      findByEmail_append_last db email _ _ hf hflds.1
    have h2 := oauthVerify_found_linked _ now₂ p profile email _ he hf2
      (by rw [hflds.2.1]; simp)
    exact ⟨(createOAuthUser db now₁ email profile.name p.str profile.id
        profile.picture).1,
      (createOAuthUser db now₁ email profile.name p.str profile.id
        profile.picture).1,
      by simp [h1], by simp [h1, h2], rfl, by simp [h1, h2]⟩
  | some u =>
    by_cases hp : u.oauthProvider = none
    · have h1 := oauthVerify_found_unlinked db now₁ p profile email u he hf hp
      have hf2 := findByEmail_updateOAuthInfo db u.id (some p.str)
        (some profile.id) (jsStringOrNull profile.picture) now₁ email
      rw [hf, Option.map_some'] at hf2
      have h2 := oauthVerify_found_linked _ now₂ p profile email _ he hf2
        (by rw [oauthInfoUpdater_self _ _ _ _ _ _ rfl]; simp)
      exact ⟨u,
        oauthInfoUpdater u.id (some p.str) (some profile.id)
          (jsStringOrNull profile.picture) now₁ u,
        by simp [h1], by simp [h1, h2],
        by rw [oauthInfoUpdater_self _ _ _ _ _ _ rfl],
        by simp [h1, h2]⟩
    · have h1 := oauthVerify_found_linked db now₁ p profile email u he hf hp
      have h2 := oauthVerify_found_linked db now₂ p profile email u he hf hp
      exact ⟨u, u, by simp [h1], by simp [h1, h2], rfl, by simp [h1, h2]⟩

/-- Witness for C7: two Google callbacks for a brand-new email resolve to the
same user id and the second changes nothing. -/
theorem oauth_callback_idempotent_witness :
    ∃ u₁ u₂ : UserData,
      (oauthVerify ⟨[], 0⟩ 3 .google
        { id := "9", email := some "dana@example.com", name := "Dana",
          picture := none }).1 = .ok u₁ ∧
      (oauthVerify (oauthVerify ⟨[], 0⟩ 3 .google
        { id := "9", email := some "dana@example.com", name := "Dana",
          picture := none }).2 4 .google
        { id := "9", email := some "dana@example.com", name := "Dana",
          picture := none }).1 = .ok u₂ ∧
      u₂.id = u₁.id ∧
      (oauthVerify (oauthVerify ⟨[], 0⟩ 3 .google
        { id := "9", email := some "dana@example.com", name := "Dana",
          picture := none }).2 4 .google
        { id := "9", email := some "dana@example.com", name := "Dana",
          picture := none }).2 =
        (oauthVerify ⟨[], 0⟩ 3 .google
          { id := "9", email := some "dana@example.com", name := "Dana",
            picture := none }).2 :=
  oauth_callback_idempotent ⟨[], 0⟩ 3 4 .google _ "dana@example.com" (by decide)

/-! ## C8: linking onto an existing password account -/

/-- The callback's linking update on the found row is exactly `linkedUser`. -/
theorem linkedUser_eq_updater (u : UserData) (p : Provider)
    (profile : RawProfile) (now : Nat) :
    oauthInfoUpdater u.id (some p.str) (some profile.id)
      (jsStringOrNull profile.picture) now u = linkedUser u p profile now := by
  rw [oauthInfoUpdater_self _ _ _ _ _ _ rfl]
  rfl

/-- C8 counterexample: Alice's account already carries a picture, and the
Google profile of her first OAuth login carries its own; after the callback
the stored picture is the profile's (`COALESCE($3, picture)` prefers the new
value), refuting "picture, if not already set". -/
theorem oauth_link_overwrites_picture :
    (findByEmail pictureDb "alice@example.com").map (fun u => u.picture) =
      some (some "old.png") ∧
    (findByEmail (oauthVerify pictureDb 5 .google pictureProfile).2
      "alice@example.com").map (fun u => u.picture) =
      some (some "new.png") := by
  decide

/-- C8 (amended): when the profile's email matches an existing user with no
provider linked, the callback links provider and external id onto that same
account; the stored picture becomes the profile's whenever the profile
provides one (the existing picture survives only when the profile has none);
the password hash is untouched, so the original password still logs in. -/
theorem oauth_link_preserves_password (db : Db) (now now₂ : Nat)
    (p : Provider) (profile : RawProfile) (email secret pw hash : String)
    (u : UserData)
    (he : jsStringOrNull profile.email = some email)
    (hf : findByEmail db email = some u)
    (hp : u.oauthProvider = none)
    (hhash : u.passwordHash = some hash)
    (hcmp : bcryptCompare pw hash = true) :
    (oauthVerify db now p profile).1 = .ok u ∧
    findByEmail (oauthVerify db now p profile).2 email =
      some (linkedUser u p profile now) ∧
    (linkedUser u p profile now).oauthProvider = some p.str ∧
    (linkedUser u p profile now).passwordHash = u.passwordHash ∧
    (login (oauthVerify db now p profile).2 secret now₂ email pw).1 =
      .ok (jwtSign secret ⟨u.id, u.email, u.role⟩ now₂)
        (linkedUser u p profile now) := by
  have h1 := oauthVerify_found_unlinked db now p profile email u he hf hp
  have hf2 := findByEmail_updateOAuthInfo db u.id (some p.str)
    (some profile.id) (jsStringOrNull profile.picture) now email
  rw [hf, Option.map_some', linkedUser_eq_updater] at hf2
  have hl : (linkedUser u p profile now).passwordHash = some hash := by
    rw [show (linkedUser u p profile now).passwordHash = u.passwordHash
      from rfl, hhash]
  refine ⟨by simp [h1], by simp [h1, hf2], rfl, rfl, ?_⟩
  simp [h1, login, hf2, hl, hcmp]
  rfl

/-- Witness for the amended C8: after Alice's first Google login her original
password still logs her in, on her linked account. -/
theorem oauth_link_preserves_password_witness :
    (oauthVerify pictureDb 5 .google pictureProfile).1 =
      .ok (mkUser 0 "alice@example.com" (some (bcryptHash "pw123")) none none
        (some "old.png")) ∧
    (login (oauthVerify pictureDb 5 .google pictureProfile).2 "secret" 9
      "alice@example.com" "pw123").1 =
      .ok (jwtSign "secret" ⟨0, "alice@example.com", "user"⟩ 9)
        (linkedUser (mkUser 0 "alice@example.com" (some (bcryptHash "pw123"))
          none none (some "old.png")) .google pictureProfile 5) := by
  have h := oauth_link_preserves_password pictureDb 5 9 .google pictureProfile
    "alice@example.com" "secret" "pw123" (bcryptHash "pw123")
    (mkUser 0 "alice@example.com" (some (bcryptHash "pw123")) none none
      (some "old.png"))
    (by decide) (by decide) (by decide) (by decide) (by decide)
  exact ⟨h.1, h.2.2.2.2⟩

/-! ## C6: the refresh flow -/

/-- C6 counterexample: refresh succeeds on a still-valid token for user 1
whose email claim is stale; the re-issued token carries the email from the
CURRENT user record, not the old token's email claim — refuting "the same
subject, email, and role claims". -/
theorem refresh_changes_email_claim :
    staleClaimToken.payload.email = "old@example.com" ∧
    refresh refreshDb "secret" (some staleClaimToken) 50 =
      .ok (jwtSign "secret" ⟨1, "new@example.com", "user"⟩ 50) ∧
    ("new@example.com" : String) ≠ "old@example.com" := by
  refine ⟨rfl, rfl, by decide⟩

/-- The row a `findById` hit carries the id looked up. -/
theorem findById_id (db : Db) (i : Nat) (u : UserData)
    (h : findById db i = some u) : u.id = i := by
  have h' : db.users.find? (fun w => w.id = i) = some u := h
  simpa using List.find?_some h'

/-- C6 (amended): `refresh` answers `'Invalid token'` for every token that
does not verify (expired ones included); it succeeds only on a verifying
token whose subject matches a stored user, and then issues a token whose
subject is that user's id (equal to the old subject) and whose email and role
are taken from the CURRENT user record — equal to the old claims exactly when
the record still matches them — with a fresh 24h expiry. -/
theorem refresh_reissues_from_record (db : Db) (secret : String)
    (t : SignedToken) (now : Nat) :
    (∀ e, jwtVerify secret t now = .error e →
      refresh db secret (some t) now = .err "Invalid token") ∧
    (∀ pl u, jwtVerify secret t now = .ok pl → findById db pl.userId = some u →
      refresh db secret (some t) now =
        .ok (jwtSign secret ⟨u.id, u.email, u.role⟩ now) ∧
      u.id = pl.userId ∧
      (jwtSign secret ⟨u.id, u.email, u.role⟩ now).exp =
        now + jwtValiditySeconds) ∧
    (∀ t', refresh db secret (some t) now = .ok t' →
      ∃ pl, jwtVerify secret t now = .ok pl) := by
  refine ⟨?_, ?_, ?_⟩
  · intro e he
    simp [refresh, he]
  · intro pl u hv hu
    exact ⟨by simp [refresh, hv, hu], findById_id db pl.userId u hu, rfl⟩
  · intro t' h
    cases hv : jwtVerify secret t now with
    | error e => simp [refresh, hv] at h
    | ok pl => exact ⟨pl, rfl⟩

/-- Witness for the amended C6: a fresh valid token for user 1 refreshes into
a token for the same subject with the record's email and a new expiry. -/
theorem refresh_reissues_from_record_witness :
    refresh refreshDb "secret" (some staleClaimToken) 50 =
      .ok (jwtSign "secret" ⟨1, "new@example.com", "user"⟩ 50) ∧
    (jwtSign "secret" ⟨1, "new@example.com", "user"⟩ 50).exp =
      50 + jwtValiditySeconds := by
  have h := (refresh_reissues_from_record refreshDb "secret" staleClaimToken
    50).2.1 ⟨1, "old@example.com", "user"⟩
    (mkUser 1 "new@example.com" (some (bcryptHash "pw")) none none none)
    rfl rfl
  exact ⟨h.1, h.2.2⟩

/-! ## C5: the password-or-OAuth credential invariant -/

/-- Pointwise reading of the credential invariant. -/
theorem credentialInvariant_iff (db : Db) :
    credentialInvariant db = true ↔
      ∀ u ∈ db.users, canAuthenticate u = true := by
  simp [credentialInvariant, List.all_eq_true]

/-- A bcrypt hash is never the empty string. -/
theorem bcryptHash_ne_empty (pw : String) : bcryptHash pw ≠ "" := by
  intro h
  have h' : ("bcrypt$" : String).length + pw.length = ("" : String).length := by
    rw [← String.length_append]
    exact congrArg String.length h
  rw [show ("bcrypt$" : String).length = 7 from rfl,
    show ("" : String).length = 0 from rfl] at h'
  omega

/-- Setting a present provider on a row keeps it authenticatable. -/
theorem canAuthenticate_updater_some (uid : Nat) (ps oid : String)
    (pic : Option String) (now : Nat) (u : UserData)
    (h : canAuthenticate u = true) :
    canAuthenticate (oauthInfoUpdater uid (some ps) (some oid) pic now u) =
      true := by
  by_cases hid : u.id = uid
  · simp [oauthInfoUpdater, hid, canAuthenticate]
  · simpa [oauthInfoUpdater, hid] using h

/-- `updateOAuthInfo` with a present provider preserves the invariant. -/
theorem credInv_updateOAuthInfo_some (db : Db) (uid : Nat) (ps oid : String)
    (pic : Option String) (now : Nat)
    (hinv : credentialInvariant db = true) :
    credentialInvariant
      (updateOAuthInfo db uid (some ps) (some oid) pic now) = true := by
  rw [credentialInvariant_iff] at hinv ⊢
  intro u hu
  rw [show (updateOAuthInfo db uid (some ps) (some oid) pic now).users =
      db.users.map (oauthInfoUpdater uid (some ps) (some oid) pic now)
      from rfl,
    List.mem_map] at hu
  obtain ⟨w, hw, rfl⟩ := hu
  exact canAuthenticate_updater_some uid ps oid pic now w (hinv w hw)

/-- `updateOAuthInfo` clearing the linkage preserves the invariant exactly
when every row bearing the target id still has a password hash. -/
theorem credInv_updateOAuthInfo_clear (db : Db) (uid : Nat)
    (pic : Option String) (now : Nat)
    (hinv : credentialInvariant db = true)
    (hpw : ∀ u ∈ db.users, u.id = uid → u.passwordHash.isSome = true) :
    credentialInvariant (updateOAuthInfo db uid none none pic now) = true := by
  rw [credentialInvariant_iff] at hinv ⊢
  intro u hu
  rw [show (updateOAuthInfo db uid none none pic now).users =
      db.users.map (oauthInfoUpdater uid none none pic now) from rfl,
    List.mem_map] at hu
  obtain ⟨w, hw, rfl⟩ := hu
  by_cases hid : w.id = uid
  · have := hpw w hw hid
    simp [oauthInfoUpdater, hid, canAuthenticate, this]
  · simpa [oauthInfoUpdater, hid] using hinv w hw

/-- Appending an authenticatable row preserves the invariant. -/
theorem credInv_append (db : Db) (u : UserData) (n : Nat)
    (hinv : credentialInvariant db = true) (hu : canAuthenticate u = true) :
    credentialInvariant ⟨db.users ++ [u], n⟩ = true := by
  rw [credentialInvariant_iff] at hinv ⊢
  intro w hw
  rcases List.mem_append.mp hw with h | h
  · exact hinv w h
  · rw [List.mem_singleton] at h
    subst h
    exact hu

/-- `updateLastLogin` touches no credential field. -/
theorem credInv_updateLastLogin (db : Db) (uid now : Nat)
    (hinv : credentialInvariant db = true) :
    credentialInvariant (updateLastLogin db uid now) = true := by
  rw [credentialInvariant_iff] at hinv ⊢
  intro u hu
  rw [show (updateLastLogin db uid now).users =
      db.users.map (lastLoginUpdater uid now) from rfl,
    List.mem_map] at hu
  obtain ⟨w, hw, rfl⟩ := hu
  by_cases hid : w.id = uid
  · simpa [lastLoginUpdater, hid, canAuthenticate] using hinv w hw
  · simpa [lastLoginUpdater, hid] using hinv w hw

/-- `dbCreate` preserves the invariant when the new row can authenticate. -/
theorem credInv_dbCreate (db : Db) (now : Nat) (email : String)
    (passwordHash : Option String) (name role : String)
    (oauthProvider oauthId picture : Option String) (ev : Bool)
    (hinv : credentialInvariant db = true)
    (hok : (jsStringOrNull passwordHash).isSome = true ∨
      (jsStringOrNull oauthProvider).isSome = true) :
    credentialInvariant
      (dbCreate db now email passwordHash name role oauthProvider oauthId
        picture ev).2 = true := by
  refine credInv_append db _ _ hinv ?_
  rcases hok with h | h <;> simp [canAuthenticate, dbCreate, h]

/-- A successful `linkOAuthAccount` is exactly an `updateOAuthInfo`. -/
theorem linkOAuthAccount_ok_eq (db : Db) (now uid : Nat) (prov oid : String)
    (pic : Option String) (db' : Db)
    (h : linkOAuthAccount db now uid prov oid pic = .ok db') :
    db' = updateOAuthInfo db uid (some prov) (some oid) pic now := by
  cases hf : findByOAuthId db prov oid with
  | none =>
    simp [linkOAuthAccount, hf] at h
    exact h.symm
  | some ex =>
    by_cases hid : ex.id ≠ uid
    · simp [linkOAuthAccount, hf, hid] at h
    · simp [linkOAuthAccount, hf, hid] at h
      exact h.symm

/-- C5 counterexample: an OAuth-only account satisfies the invariant; the
unlink route succeeds on it and clears its only linkage, leaving a record
with neither a password hash nor a provider. -/
theorem unlink_breaks_credential_invariant :
    credentialInvariant oauthOnlyDb = true ∧
    (unlinkRoute oauthOnlyDb 5 "google" 0).1 = .ok ∧
    credentialInvariant (unlinkRoute oauthOnlyDb 5 "google" 0).2 = false := by
  decide

/-- C5 (amended): register, the OAuth callback, the link route and login all
preserve the password-or-OAuth credential invariant; the unlink route
preserves it only when every row bearing the target user id still has a
password hash — applied to an OAuth-only account it clears the only linkage
and violates the invariant (see the counterexample). -/
theorem credential_invariant_preservation (db : Db) (now : Nat)
    (hinv : credentialInvariant db = true) :
    (∀ secret email pw name role,
      credentialInvariant (register db secret now email pw name role).2 =
        true) ∧
    (∀ p profile,
      credentialInvariant (oauthVerify db now p profile).2 = true) ∧
    (∀ prov uid oid,
      credentialInvariant (linkRoute db now prov uid oid).2 = true) ∧
    (∀ secret email pw,
      credentialInvariant (login db secret now email pw).2 = true) ∧
    (∀ prov uid,
      (∀ u ∈ db.users, u.id = uid → u.passwordHash.isSome = true) →
      credentialInvariant (unlinkRoute db now prov uid).2 = true) := by
  refine ⟨?_, ?_, ?_, ?_, ?_⟩
  · intro secret email pw name role
    cases hf : findByEmail db email with
    | some u => simp [register, hf, hinv]
    | none =>
      have hcreate := credInv_dbCreate db now email (some (bcryptHash pw))
        name role none none none false hinv
        (Or.inl (by simp [jsStringOrNull_some (bcryptHash_ne_empty pw)]))
      simpa [register, hf] using hcreate
  · intro p profile
    cases he : jsStringOrNull profile.email with
    | none => simpa [oauthVerify, he] using hinv
    | some email =>
      cases hf : findByEmail db email with
      | some u =>
        by_cases hp : u.oauthProvider = none
        · rw [oauthVerify_found_unlinked db now p profile email u he hf hp]
          exact credInv_updateOAuthInfo_some db u.id p.str profile.id
            (jsStringOrNull profile.picture) now hinv
        · rw [oauthVerify_found_linked db now p profile email u he hf hp]
          exact hinv
      | none =>
        rw [oauthVerify_not_found db now p profile email he hf]
        exact credInv_dbCreate db now email none profile.name "user"
          (some p.str) (some profile.id) profile.picture true hinv
          (Or.inr (by simp [jsStringOrNull_some (Provider.str_ne_empty p)]))
  · intro prov uid oid
    cases hvp : validProvider prov with
    | false => simpa [linkRoute, hvp] using hinv
    | true =>
      cases hid : findById db uid with
      | none => simpa [linkRoute, hvp, hid] using hinv
      | some w =>
        have hok : ∀ db', linkOAuthAccount db now uid prov oid none = .ok db' →
            credentialInvariant db' = true := by
          intro db' hla
          rw [linkOAuthAccount_ok_eq db now uid prov oid none db' hla]
          exact credInv_updateOAuthInfo_some db uid prov oid none now hinv
        cases hfo : findByOAuthId db prov oid with
        | some ex =>
          by_cases hex : ex.id ≠ uid
          · simpa [linkRoute, hvp, hid, hfo, hex] using hinv
          · cases hla : linkOAuthAccount db now uid prov oid none with
            | ok db' =>
              simpa [linkRoute, hvp, hid, hfo, hex, hla] using hok db' hla
            | error msg =>
              simpa [linkRoute, hvp, hid, hfo, hex, hla] using hinv
        | none =>
          cases hla : linkOAuthAccount db now uid prov oid none with
          | ok db' =>
            simpa [linkRoute, hvp, hid, hfo, hla] using hok db' hla
          | error msg =>
            simpa [linkRoute, hvp, hid, hfo, hla] using hinv
  · intro secret email pw
    cases hf : findByEmail db email with
    | none => simpa [login, hf] using hinv
    | some u =>
      cases hpw : u.passwordHash with
      | none => simpa [login, hf, hpw] using hinv
      | some hash =>
        by_cases hc : bcryptCompare pw hash = true
        · have := credInv_updateLastLogin db u.id now hinv
          simpa [login, hf, hpw, hc] using this
        · simpa [login, hf, hpw, hc] using hinv
  · intro prov uid hpw
    cases hvp : validProvider prov with
    | false => simpa [unlinkRoute, hvp] using hinv
    | true =>
      cases hid : findById db uid with
      | none => simpa [unlinkRoute, hvp, hid] using hinv
      | some w =>
        have := credInv_updateOAuthInfo_clear db uid none now hinv hpw
        simpa [unlinkRoute, hvp, hid] using this

/-- Witness for the amended C5: a user who set a password after OAuth-linking
can be unlinked without breaking the invariant, and a fresh registration
keeps the store invariant too. -/
theorem credential_invariant_preservation_witness :
    credentialInvariant
      (unlinkRoute ⟨[mkUser 0 "amy@example.com" (some (bcryptHash "pw"))
        (some "google") (some "9") none], 1⟩ 5 "google" 0).2 = true ∧
    credentialInvariant
      (register ⟨[mkUser 0 "amy@example.com" (some (bcryptHash "pw"))
        (some "google") (some "9") none], 1⟩ "secret" 5 "ben@example.com"
        "pw2" "Ben" "user").2 = true := by
  have h := credential_invariant_preservation
    ⟨[mkUser 0 "amy@example.com" (some (bcryptHash "pw"))
      (some "google") (some "9") none], 1⟩ 5 (by decide)
  exact ⟨h.2.2.2.2 "google" 0 (by decide),
    h.1 "secret" "ben@example.com" "pw2" "Ben" "user"⟩

end ChatbotAuth
